import Mathlib

/-!
Verification of the ChewCrew room/vote API (`api.go`) against its
specification.  The Go code is shallowly embedded: the `map[string]*Room`
registry and the `map[string]int32` vote counters become association lists
kept in insertion order (Go map iteration order is unspecified; every
counterexample below is insensitive to that order), `int32` counters become
`Int` with an explicit wrap at 2^31 on increment, and each handler-level
operation (`Get`, `New`, `Vote`, `End`) becomes a pure state transformer on
the `API` value.  Go's pointer semantics matter here: the registry stores
`*Room`, so in-place mutations of a looked-up room (as `Get` performs)
mutate the stored room; the embedding writes the updated room back into the
registry to reflect this.
-/

/-- Options for the Place API; in the source an empty struct (`PlaceOptions{}`). -/
structure PlaceOptions where
deriving DecidableEq, Repr

/-- Modelled from the spec: the external place/category collaborator is not
under `src/` (only its call sites are).  Per the spec it exposes
`Categories() → ordered sequence of category` and a place resolution
`Resolve(options, category) → venue` that can fail with a lookup error.
`getPlace` returning `none` models the failure case; the Go call site
`place, _ := api.PlaceAPI.Get(...)` discards that error and uses the zero
value `""` for the place. -/
structure PlaceAPI where
  categories : List String
  getPlace : PlaceOptions → String → Option String

/-- Wrap an integer into the `int32` range, as Go's `int32` increment does. -/
def int32wrap (n : Int) : Int := (n + 2 ^ 31) % 2 ^ 32 - 2 ^ 31

/-- Read `m[k]` from a Go map: zero value `0` when the key is absent. -/
def mapGet (m : List (String × Int)) (k : String) : Int :=
  ((m.find? (fun p => p.1 = k)).map (fun p => p.2)).getD 0

/-- Write `m[k] = v` into a Go map: update in place when present, add otherwise. -/
def mapSet (m : List (String × Int)) (k : String) (v : Int) : List (String × Int) :=
  match m with
  | [] => [(k, v)]
  | (k', v') :: rest => if k' = k then (k', v) :: rest else (k', v') :: mapSet rest k v

/-- The room/session state (`Room` in `api.go`).  `votes = none` models a nil
`map[string]int32` (as `Get` leaves behind); the mutex and the JSON tags
carry no state and are not modelled. -/
structure Room where
  id : String
  hostID : String
  voters : List String
  choices : List String
  votes : Option (List (String × Int))
  winner : String
  placeOptions : PlaceOptions
deriving DecidableEq, Repr

/-- The API state: the room registry (`Rooms map[string]*Room`) plus the
injected place collaborator. -/
structure API where
  rooms : List (String × Room)
  place : PlaceAPI

/-- Look a room up in the registry (`api.Rooms[id]`, comma-ok form). -/
def findRoom (rooms : List (String × Room)) (id : String) : Option Room :=
  ((rooms.find? (fun p => p.1 = id)).map (fun p => p.2))

/-- Store a room under an id (`api.Rooms[id] = &room`, and writes through a
looked-up `*Room` pointer). -/
def setRoom (rooms : List (String × Room)) (id : String) (r : Room) :
    List (String × Room) :=
  match rooms with
  | [] => [(id, r)]
  | (k, v) :: rest => if k = id then (k, r) :: rest else (k, v) :: setRoom rest id r

/-- `API.Get` from the source: look the room up (`ErrorRoomNotFound`, here
`none`, when absent), then clear the "private" fields `HostID` and `Votes`
on the shared room and return it.  Because the registry stores a pointer,
the clearing persists in the stored room. -/
def API.Get (api : API) (id : String) : Option Room × API :=
  match findRoom api.rooms id with
  | none => (none, api)
  | some room =>
    let room := { room with hostID := "", votes := none }
    (some room, { api with rooms := setRoom api.rooms id room })

/-- Modelled from the spec for the missing `generateID`: the IDGenerator is
an external pseudorandom string source, so `New` takes the two generated
strings (room id and host id) as parameters.  The rest is the source
`API.New`: start from the empty room, append each category to `Choices`
while zero-initialising its vote counter, and register the room under its
id. -/
def API.New (api : API) (id hostID : String) : Room × API :=
  let room : Room :=
    { id := id, hostID := hostID, voters := [], choices := [],
      votes := some [], winner := "", placeOptions := {} }
  let room := api.place.categories.foldl
    (fun r c =>
      { r with choices := r.choices ++ [c],
               votes := r.votes.map (fun m => mapSet m c 0) }) room
  (room, { api with rooms := setRoom api.rooms room.id room })

/-- Outcome of a `Vote` call.  `panicNilMap` is the Go runtime panic raised
by `room.Votes[vote]++` when `Votes` is a nil map: the request crashes
instead of returning an error value.  The voter append on the line before
the panic has already happened through the shared pointer, so the state
component records it. -/
inductive VoteResult where
  | ok
  | roomNotFound
  | roomEnded
  | panicNilMap
deriving DecidableEq, Repr

/-- `API.Vote` from the source: room lookup, reject when the room has ended
(`Winner != ""`), then append the voter and increment the chosen counter. -/
def API.Vote (api : API) (id name vote : String) : VoteResult × API :=
  match findRoom api.rooms id with
  | none => (.roomNotFound, api)
  | some room =>
    if room.winner ≠ "" then (.roomEnded, api)
    else
      let room := { room with voters := room.voters ++ [name] }
      match room.votes with
      | none => (.panicNilMap, { api with rooms := setRoom api.rooms id room })
      | some m =>
        let room := { room with
          votes := some (mapSet m vote (int32wrap (mapGet m vote + 1))) }
        (.ok, { api with rooms := setRoom api.rooms id room })

/-- Outcome of an `End` call. -/
inductive EndResult where
  | ok
  | roomNotFound
  | unauthorized
deriving DecidableEq, Repr

/-- The winner-selection loop of `API.End` (lines 181-188): `max := 0`,
`winner := ""`, keep a strictly greater count.  Iterating a nil map runs
zero iterations, so `none` yields `""`. -/
def tallyStep (acc : Int × String) (kv : String × Int) : Int × String :=
  if kv.2 > acc.1 then (kv.2, kv.1) else acc

/-- Winning category of a vote map per the source loop; `""` when no count
is strictly positive or the map is nil.  The fold fixes insertion order,
whereas Go re-randomizes map iteration on every `range`: when several
choices tie for the maximal positive count, the Go loop's result depends on
that unspecified order, so only order-insensitive consequences of this
definition reflect program guarantees (a unique strict maximum, the
all-zero case, and the nil-map case are order-insensitive). -/
def tallyWinner : Option (List (String × Int)) → String
  | none => ""
  | some m => (m.foldl tallyStep (0, "")).2

/-- `API.End` from the source: room lookup, host-id check
(`ErrorUnauthorized`), winner-selection loop, then the external place lookup
whose error is discarded (`place, _ :=`) and whose zero value `""` is used
on failure; finally `room.Winner = string(place)` through the shared
pointer.  The third component reports whether the external place lookup was
invoked during the call. -/
def API.End (api : API) (id hostid : String) : EndResult × API × Bool :=
  match findRoom api.rooms id with
  | none => (.roomNotFound, api, false)
  | some room =>
    if room.hostID ≠ hostid then (.unauthorized, api, false)
    else
      let winner := tallyWinner room.votes
      let place := (api.place.getPlace room.placeOptions winner).getD ""
      let room := { room with winner := place }
      (.ok, { api with rooms := setRoom api.rooms id room }, true)

/-! ### Concrete fixtures used by witnesses and counterexamples -/

/-- A place collaborator that lists two categories and resolves each
category to itself (the spec scenario "assuming place-lookup echoes the
category"). -/
def placeEcho : PlaceAPI :=
  { categories := ["sushi", "pizza"], getPlace := fun _ c => some c }

/-- Fresh API over `placeEcho`. -/
def apiEx0 : API := { rooms := [], place := placeEcho }

/-- State after `New` created room `room1` with host secret `secret`. -/
def apiEx1 : API := (apiEx0.New "room1" "secret").2

/-- State after one vote for `pizza` in `room1`. -/
def apiEx2 : API := (apiEx1.Vote "room1" "alice" "pizza").2

/-- State after the host ended `room1` (winner `pizza`). -/
def apiEx3 : API := ((apiEx2.End "room1" "secret").2).1

/-- State after a `Get` of the ended `room1` (host id and votes cleared). -/
def apiEx4 : API := ((apiEx3.Get "room1").2)

/-- The stored `room1` right after creation. -/
def roomEx1 : Room :=
  { id := "room1", hostID := "secret", voters := [], choices := ["sushi", "pizza"],
    votes := some [("sushi", 0), ("pizza", 0)], winner := "", placeOptions := {} }

/-- The stored `room1` after the vote for `pizza` (still open). -/
def roomEx2 : Room :=
  { roomEx1 with voters := ["alice"], votes := some [("sushi", 0), ("pizza", 1)] }

/-- A place collaborator whose resolution always fails (e.g. a timeout). -/
def placeFail : PlaceAPI :=
  { categories := ["sushi", "pizza"], getPlace := fun _ _ => none }

/-- Fresh API over `placeFail`, with room `room2` (secret `s2`) created. -/
def apiFx1 : API := (({ rooms := [], place := placeFail } : API).New "room2" "s2").2

/-- State of the `placeFail` API after one vote for `pizza` in `room2`. -/
def apiFx2 : API := (apiFx1.Vote "room2" "dave" "pizza").2

/-- The stored `room2` after that vote. -/
def roomFx1 : Room :=
  { id := "room2", hostID := "s2", voters := ["dave"], choices := ["sushi", "pizza"],
    votes := some [("sushi", 0), ("pizza", 1)], winner := "", placeOptions := {} }

/-- A place collaborator that resolves every category, mapping the empty
category to the venue `tacos`. -/
def placeTotal : PlaceAPI :=
  { categories := ["sushi", "pizza"],
    getPlace := fun _ c => some (if c = "" then "tacos" else c) }

/-- Fresh API over `placeTotal`, with room `room3` (secret `s3`) created. -/
def apiGx1 : API := (({ rooms := [], place := placeTotal } : API).New "room3" "s3").2

/-- The stored `room3` right after creation. -/
def roomGx1 : Room :=
  { id := "room3", hostID := "s3", voters := [], choices := ["sushi", "pizza"],
    votes := some [("sushi", 0), ("pizza", 0)], winner := "", placeOptions := {} }

example : findRoom apiEx1.rooms "room1" = some roomEx1 := by decide
example : findRoom apiEx2.rooms "room1" = some roomEx2 := by decide
example : findRoom apiFx2.rooms "room2" = some roomFx1 := by decide
example : findRoom apiGx1.rooms "room3" = some roomGx1 := by decide

/-! ### Helper lemmas -/

/-- Looking up the id just stored finds exactly the stored room. -/
theorem findRoom_setRoom (rooms : List (String × Room)) (id : String) (r : Room) :
    findRoom (setRoom rooms id r) id = some r := by
  induction rooms with
  | nil => simp [findRoom, setRoom]
  | cons p rest ih =>
    obtain ⟨k, v⟩ := p
    by_cases hk : k = id
    · simp [findRoom, setRoom, hk]
    · simpa [findRoom, setRoom, hk] using ih

/-- Writing a key into a vote map preserves the key list when the key is
present and appends it otherwise. -/
theorem mapSet_keys (m : List (String × Int)) (k : String) (v : Int) :
    (mapSet m k v).map Prod.fst =
      if k ∈ m.map Prod.fst then m.map Prod.fst else m.map Prod.fst ++ [k] := by
  induction m with
  | nil => simp [mapSet]
  | cons p rest ih =>
    obtain ⟨k', v'⟩ := p
    by_cases hk : k' = k
    · simp [mapSet, hk]
    · have hne : ¬ k = k' := fun h => hk h.symm
      by_cases hm : k ∈ rest.map Prod.fst <;>
        simp [mapSet, hk, ih, hne, hm]

/-! ### Claims -/

/-- C1: refuted on the code.  The claim says a successful `Get` leaves the
stored `hostSecret` and `voteCounts` exactly as they were; in the source,
`Get` "clears private fields" on the shared `*Room`, so the stored host
secret becomes `""` and the stored vote map becomes nil.  Concretely: right
after creation the stored room holds the secret and the zeroed counters,
and after one `Get` the stored room has `hostID = ""` and `votes = none`. -/
theorem C1_get_mutates_stored_room :
    findRoom apiEx1.rooms "room1" = some roomEx1 ∧
    findRoom ((apiEx1.Get "room1").2.rooms) "room1" =
      some { roomEx1 with hostID := "", votes := none } := by decide

/-- C3: refuted on the code for the all-zero case.  With every count zero
the selection loop never takes its branch (strict `>` against `max = 0`),
so the selected category is `""` — not the first declared choice `"sushi"`
— and `End` records the place resolved from `""` (here `""` under the echo
collaborator): no winner is produced for a non-empty choice set. -/
theorem C3_zero_votes_select_no_choice :
    tallyWinner (some [("sushi", 0), ("pizza", 0)]) = "" ∧
    (apiEx1.End "room1" "secret").1 = .ok ∧
    (findRoom (((apiEx1.End "room1" "secret").2).1.rooms) "room1").map Room.winner =
      some "" := by decide

/-- C5: confirmed.  A vote against a closed room (`winner ≠ ""`) fails with
`RoomEnded` and leaves the whole API state — in particular the room's
`votes` and `voters` — unchanged. -/
theorem C5_vote_after_end_rejected (api : API) (id name vote : String) (room : Room)
    (h : findRoom api.rooms id = some room) (hclosed : room.winner ≠ "") :
    api.Vote id name vote = (.roomEnded, api) := by
  simp [API.Vote, h, hclosed]

/-- C5 witness: voting in the ended `room1` fails with `RoomEnded` and
changes nothing. -/
theorem C5_witness :
    apiEx3.Vote "room1" "carol" "sushi" = (.roomEnded, apiEx3) :=
  C5_vote_after_end_rejected apiEx3 "room1" "carol" "sushi"
    { roomEx1 with
        voters := ["alice"],
        votes := some [("sushi", 0), ("pizza", 1)],
        winner := "pizza" }
    (by decide) (by decide)

/-- C6: confirmed.  `End` with a host id different from the stored one fails
with `Unauthorized`, performs no place lookup, and leaves the API state —
voters, votes, winner, host secret — exactly as before. -/
theorem C6_wrong_secret_no_mutation (api : API) (id hostid : String) (room : Room)
    (h : findRoom api.rooms id = some room) (hbad : room.hostID ≠ hostid) :
    api.End id hostid = (.unauthorized, api, false) := by
  simp [API.End, h, hbad]

/-- C6 witness: ending `room1` with the wrong secret fails with
`Unauthorized` and changes nothing. -/
theorem C6_witness :
    apiEx1.End "room1" "wrong" = (.unauthorized, apiEx1, false) :=
  C6_wrong_secret_no_mutation apiEx1 "room1" "wrong" roomEx1 (by decide) (by decide)

/-- C7: refuted on the code.  The winner is not terminal: after the host
ended `room1` with winner `"pizza"`, a `Get` clears the stored host id and
votes, and a second `End` with the now-matching empty host id re-runs the
tally over the nil vote map, selects category `""`, and overwrites the
stored winner with `""` — the previously set winner changes and the room
re-opens. -/
theorem C7_winner_overwritten :
    (findRoom apiEx3.rooms "room1").map Room.winner = some "pizza" ∧
    (findRoom (((apiEx4.End "room1" "").2).1.rooms) "room1").map Room.winner =
      some "" := by decide

/-- C10: confirmed.  After a successful `Get` of an open room, the stored
vote map is nil, so a subsequent `Vote` does not return an error value: it
reaches `room.Votes[vote]++` on a nil map, which panics (crashes the
request).  The voter append on the preceding line has already mutated the
shared room. -/
theorem C10_vote_after_get_panics (api : API) (id name vote : String) (room : Room)
    (h : findRoom api.rooms id = some room) (hopen : room.winner = "") :
    ((api.Get id).2.Vote id name vote).1 = .panicNilMap := by
  simp [API.Get, API.Vote, h, findRoom_setRoom, hopen]

/-- C10 witness: voting in `room1` right after a `Get` crashes with the
nil-map panic. -/
theorem C10_witness :
    ((apiEx1.Get "room1").2.Vote "room1" "eve" "pizza").1 = .panicNilMap :=
  C10_vote_after_get_panics apiEx1 "room1" "eve" "pizza" roomEx1 (by decide) (by decide)

/-- C2: refuted as stated.  The second `End` with the correct secret does
invoke the external place lookup again (the invocation flag of the second
call is `true`): `End` has no already-closed check, so nothing stops the
re-tally and re-lookup. -/
theorem C2_counterexample :
    (apiEx2.End "room1" "secret").1 = .ok ∧
    (apiEx3.End "room1" "secret").1 = .ok ∧
    ((apiEx3.End "room1" "secret").2).2 = true := by decide

/-- C2 amended: the second `End` with the correct secret also succeeds, but
`End` has no already-closed check, so it recomputes the tally and invokes
the external place lookup again; and the rerun selection loop is sensitive
to the order in which the vote map is iterated when maximal counts tie (Go
randomizes that order per `range`), so not even preservation of the stored
winner is guaranteed by the program. -/
theorem C2_end_twice_relookup (api : API) (id host : String) (room : Room)
    (h : findRoom api.rooms id = some room) (hauth : room.hostID = host) :
    (api.End id host).1 = .ok ∧
    (((api.End id host).2).1.End id host).1 = .ok ∧
    (((((api.End id host).2).1.End id host)).2).2 = true ∧
    tallyWinner (some [("a", 1), ("b", 1)]) ≠
      tallyWinner (some [("b", 1), ("a", 1)]) := by
  refine ⟨?_, ?_, ?_, by decide⟩ <;> simp [API.End, h, hauth, findRoom_setRoom]

/-- C2 witness: ending the voted room twice with the correct secret, both
calls succeed and the second invokes the lookup again; the tied tally read
in two different orders selects two different choices. -/
theorem C2_witness :
    (apiEx2.End "room1" "secret").1 = .ok ∧
    (((apiEx2.End "room1" "secret").2).1.End "room1" "secret").1 = .ok ∧
    (((((apiEx2.End "room1" "secret").2).1.End "room1" "secret")).2).2 = true ∧
    tallyWinner (some [("a", 1), ("b", 1)]) ≠
      tallyWinner (some [("b", 1), ("a", 1)]) :=
  C2_end_twice_relookup apiEx2 "room1" "secret" roomEx2 (by decide) (by decide)

/-- C4: refuted as stated.  `Vote` with the unrecognized choice `burgers`
adds the key `burgers` to the stored vote map (its keys no longer equal the
choices), and a successful `Get` removes every key by setting the stored
vote map to nil. -/
theorem C4_counterexample :
    findRoom ((apiEx1.Vote "room1" "bob" "burgers").2.rooms) "room1" =
      some { roomEx1 with
               voters := ["bob"],
               votes := some [("sushi", 0), ("pizza", 0), ("burgers", 1)] } ∧
    findRoom ((apiEx1.Get "room1").2.rooms) "room1" =
      some { roomEx1 with
               hostID := "",
               votes := none } := by decide

/-- C4 amended: on an open room with a live vote map, `Vote` stores the map
with the chosen key incremented — preserving the key list when the choice
is already a key and appending the choice as a new key otherwise — and a
successful `Get` sets the stored vote map to nil, removing every key. -/
theorem C4_vote_key_behavior (api : API) (id name vote : String) (room : Room)
    (m : List (String × Int))
    (h : findRoom api.rooms id = some room) (hopen : room.winner = "")
    (hm : room.votes = some m) :
    ((findRoom ((api.Vote id name vote).2.rooms) id).map Room.votes) =
      some (some (mapSet m vote (int32wrap (mapGet m vote + 1)))) ∧
    (mapSet m vote (int32wrap (mapGet m vote + 1))).map Prod.fst =
      (if vote ∈ m.map Prod.fst then m.map Prod.fst else m.map Prod.fst ++ [vote]) ∧
    ((findRoom ((api.Get id).2.rooms) id).map Room.votes) = some none := by
  refine ⟨?_, mapSet_keys m vote (int32wrap (mapGet m vote + 1)), ?_⟩
  · simp [API.Vote, h, hopen, hm, findRoom_setRoom]
  · simp [API.Get, h, findRoom_setRoom]

/-- C4 witness: in the fresh `room1`, a vote for the unrecognized choice
`burgers` stores the incremented map whose key list gains `burgers`, and a
`Get` stores a nil vote map. -/
theorem C4_witness :
    ((findRoom ((apiEx1.Vote "room1" "bob" "burgers").2.rooms) "room1").map Room.votes) =
      some (some (mapSet [("sushi", 0), ("pizza", 0)] "burgers"
        (int32wrap (mapGet [("sushi", 0), ("pizza", 0)] "burgers" + 1)))) ∧
    (mapSet [("sushi", 0), ("pizza", 0)] "burgers"
        (int32wrap (mapGet [("sushi", 0), ("pizza", 0)] "burgers" + 1))).map Prod.fst =
      (if "burgers" ∈ ([("sushi", 0), ("pizza", 0)] : List (String × Int)).map Prod.fst
        then ([("sushi", 0), ("pizza", 0)] : List (String × Int)).map Prod.fst
        else ([("sushi", 0), ("pizza", 0)] : List (String × Int)).map Prod.fst
          ++ ["burgers"]) ∧
    ((findRoom ((apiEx1.Get "room1").2.rooms) "room1").map Room.votes) = some none :=
  C4_vote_key_behavior apiEx1 "room1" "bob" "burgers" roomEx1
    [("sushi", 0), ("pizza", 0)] (by decide) (by decide) (by decide)

/-- C8: refuted as stated.  When the external place lookup fails (here it
always fails, as on a timeout), `End` still returns success — the source
discards the lookup error — contradicting the claim that `End` fails with
an error. -/
theorem C8_counterexample :
    placeFail.getPlace {} "pizza" = none ∧
    (apiFx2.End "room2" "s2").1 = .ok := by decide

/-- C8 amended: when the external place lookup fails during `End`, the call
nevertheless returns success (the lookup error is discarded), and the room
remains open with no winner recorded (the stored winner is the empty
string). -/
theorem C8_lookup_failure_ignored (api : API) (id host : String) (room : Room)
    (h : findRoom api.rooms id = some room) (hauth : room.hostID = host)
    (_hopen : room.winner = "")
    (hfail : api.place.getPlace room.placeOptions (tallyWinner room.votes) = none) :
    (api.End id host).1 = .ok ∧
    (findRoom ((api.End id host).2).1.rooms id).map Room.winner = some "" := by
  simp [API.End, h, hauth, hfail, findRoom_setRoom]

/-- C8 witness: ending `room2` under the always-failing lookup succeeds and
records no winner. -/
theorem C8_witness :
    (apiFx2.End "room2" "s2").1 = .ok ∧
    (findRoom ((apiFx2.End "room2" "s2").2).1.rooms "room2").map Room.winner =
      some "" :=
  C8_lookup_failure_ignored apiFx2 "room2" "s2" roomFx1
    (by decide) (by decide) (by decide) (by decide)

/-- C9: confirmed.  After a successful `Get`, the stored host secret is the
empty string, so `End(id, "")` passes the authorization check and succeeds;
it tallies the (now nil) vote map to the empty category, and when the place
lookup resolves that category to a non-empty venue the room is closed with
that venue as winner. -/
theorem C9_get_destroys_secret (api : API) (id : String) (room : Room) (v : String)
    (h : findRoom api.rooms id = some room)
    (hv : api.place.getPlace room.placeOptions "" = some v) (hvne : v ≠ "") :
    ((api.Get id).2.End id "").1 = .ok ∧
    (findRoom (((api.Get id).2.End id "").2).1.rooms id).map Room.winner = some v ∧
    v ≠ "" := by
  refine ⟨?_, ?_, hvne⟩ <;>
    simp [API.Get, API.End, h, hv, findRoom_setRoom, tallyWinner]

/-- C9 witness: after a `Get` of the fresh `room3`, ending it with the empty
secret succeeds and closes the room with winner `tacos`. -/
theorem C9_witness :
    ((apiGx1.Get "room3").2.End "room3" "").1 = .ok ∧
    (findRoom (((apiGx1.Get "room3").2.End "room3" "").2).1.rooms "room3").map
        Room.winner = some "tacos" ∧
    ("tacos" : String) ≠ "" :=
  C9_get_destroys_secret apiGx1 "room3" roomGx1 "tacos"
    (by decide) (by decide) (by decide)
